import Mathlib

/-!
Verification of the cheatsheet generator (`src/generate_cheatsheet.ts`).

Shallow embedding: all external effects (filesystem, `git clone`,
`files-to-prompt`, the Gemini API, `fs.rmSync`/`mkdirSync`/`writeFileSync`)
are modelled by an environment record that supplies each step's outcome;
the script's control flow is translated into pure functions over that
environment.  String-processing helpers model the exact JavaScript
expressions on the ASCII range (all claims and examples are ASCII).
-/

namespace Cheatsheet

/-- A character in the regex class `[a-z0-9]` used by both sanitizers
(lines 175 and 199 of `generate_cheatsheet.ts`). -/
def isLowerAlnum (c : Char) : Bool :=
  ( 'a' ≤ c && c ≤ 'z' ) || ( '0' ≤ c && c ≤ '9' )

/-- `String.prototype.toLowerCase` on one character, restricted to the
ASCII range (the only range the claims exercise). -/
def jsLowerChar (c : Char) : Char :=
  if 'A' ≤ c && c ≤ 'Z' then Char.ofNat (c.toNat + 32) else c

/-- The ASCII members of the whitespace class used by
`String.prototype.trim`. -/
def jsWhitespace (c : Char) : Bool :=
  c = ' ' || c = '\t' || c = '\n' || c = '\r' || c = '\x0b' || c = '\x0c'

/-- Models the emptiness tests `!s || s.trim() === ""` and
`s.trim().length === 0`: the string has no non-whitespace character. -/
def isBlank (s : String) : Bool := s.data.all jsWhitespace

/-- `String.prototype.startsWith` (prefix of the character sequence). -/
def jsStartsWith (s p : String) : Bool := p.data.isPrefixOf s.data

/-- `path.basename`: the substring after the last directory separator. -/
def jsBaseName (p : String) : String :=
  String.mk ((p.data.reverse.takeWhile fun c => !(c = '/')).reverse)

/-- One pass of `replace(/[^a-z0-9]+/g, "_")` (line 175): a left scan in
which the flag records whether we are inside a run of characters outside
`[a-z0-9]`; the replacement underscore is emitted at the start of each
such maximal run, exactly as the global regex replacement does. -/
def collapseAux : Bool → List Char → List Char
  | _, [] => []
  | inRun, c :: cs =>
    if isLowerAlnum c then c :: collapseAux false cs
    else if inRun then collapseAux true cs
    else '_' :: collapseAux true cs

/-- `s.replace(/[^a-z0-9]+/g, "_")` on the character list of `s`. -/
def collapseRuns (l : List Char) : List Char := collapseAux false l

/-- Line 175: `projectName.toLowerCase().replace(/[^a-z0-9]+/g, "_") +
"_cheatsheet.md"`. -/
def cheatsheetFilename (projectName : String) : String :=
  String.mk (collapseRuns (projectName.data.map jsLowerChar)) ++ "_cheatsheet.md"

/-- The specification formulation of the same filename rule: scanning the
lower-cased name, a character outside `[a-z0-9]` contributes an underscore
only when it ends its maximal run (so each maximal run collapses to a
single underscore). -/
def collapseRunsSpec : List Char → List Char
  | [] => []
  | [c] => if isLowerAlnum c then [c] else [ '_' ]
  | c :: d :: cs =>
    if isLowerAlnum c then c :: collapseRunsSpec (d :: cs)
    else if isLowerAlnum d then '_' :: collapseRunsSpec (d :: cs)
    else collapseRunsSpec (d :: cs)

/-- The filename as the specification words describe it. -/
def cheatsheetFilenameSpec (projectName : String) : String :=
  String.mk (collapseRunsSpec (projectName.data.map jsLowerChar)) ++ "_cheatsheet.md"

/-- Line 199: `currentProjectName.toLowerCase().replace(/[^a-z0-9]/g, "_")`
(note: no `+` in this regex, each character is replaced individually). -/
def sanitizeWorkspaceName (name : String) : String :=
  String.mk ((name.data.map jsLowerChar).map
    fun c => if isLowerAlnum c then c else '_' )

/-- Line 199: `path.join(TEMP_REPO_DIR, sanitized)` with
`TEMP_REPO_DIR = "./repo_temp"`; `path.join` normalizes the leading `./`
away, leaving a fixed prefix followed by the sanitized name. -/
def tempRepoPath (name : String) : String :=
  "repo_temp/" ++ sanitizeWorkspaceName name

/-- Where a command-line source-file argument is resolved (lines 279-281):
either `path.resolve(sourceFileArg)` (relative to the working directory)
or `path.resolve(SOURCES_DIR, sourceFileArg)` (inside `./sources`). -/
inductive ResolvedPath
  | fromCwd (arg : String)
  | fromSourcesDir (arg : String)
deriving DecidableEq

/-- Lines 279-281: arguments starting with `/` or `.` resolve as given,
every other argument resolves inside the default sources directory. -/
def resolveSourceFilePath (arg : String) : ResolvedPath :=
  if jsStartsWith arg ("/") || jsStartsWith arg (".") then ResolvedPath.fromCwd arg
  else ResolvedPath.fromSourcesDir arg

/-- The resolution rule as claim C6 words it: a bare filename (no
directory component, i.e. no `/` anywhere) resolves inside the sources
directory, and absolute or relative paths are used as given. -/
def resolveSourceFilePathClaimed (arg : String) : ResolvedPath :=
  if arg.data.contains '/' then ResolvedPath.fromCwd arg
  else ResolvedPath.fromSourcesDir arg

/-- The rule the code actually implements, stated on the first character. -/
def resolveByFirstChar (arg : String) : ResolvedPath :=
  match arg.data with
  | [] => ResolvedPath.fromSourcesDir arg
  | c :: _ =>
    if c = '/' || c = '.' then ResolvedPath.fromCwd arg
    else ResolvedPath.fromSourcesDir arg

/-- The concrete string a `ResolvedPath` denotes, with `path.resolve`'s
working-directory prefix omitted (it never changes the base name). -/
def resolvedPathString : ResolvedPath → String
  | ResolvedPath.fromCwd a => a
  | ResolvedPath.fromSourcesDir a => "sources/" ++ a

/-! ## Generation Client (`generateCheatsheetWithGemini`, lines 96-172) -/

deriving instance DecidableEq for Except

/-- One element of `response.candidates` as the client reads it:
the texts of `content.parts` and the candidate's `finishReason`. -/
structure GenCandidate where
  partTexts : List String
  finishReason : Option String
deriving DecidableEq

/-- The shape of the Gemini response the client inspects:
`response.text()` (which either returns a string or throws),
`response.candidates`, and `response.promptFeedback.blockReason`. -/
structure GenResponse where
  textResult : Except Unit String
  candidates : Option (List GenCandidate)
  promptBlockReason : Option String
deriving DecidableEq

/-- What the awaited API call produces: either a response object or a
rejection/processing error caught by the client's outer `catch`
(lines 160-171). -/
inductive GenApiResult
  | transportError (message : String)
  | response (r : GenResponse)
deriving DecidableEq

/-- The failure classification the Generation Client computes and
reports before raising (lines 127-147 classify and log the reason; the
outer `catch` at lines 160-171 wraps transport/API errors). -/
inductive GenFailureReason
  | blocked (reason : String)
  | abnormalFinish (finishReason : String)
  | noContent
  | apiError (message : String)
deriving DecidableEq

/-- Lines 116-125: take `response.text()` if it returns; otherwise fall
back to joining the first candidate's part texts; otherwise the empty
string. -/
def extractedText (r : GenResponse) : String :=
  match r.textResult with
  | Except.ok t => t
  | Except.error _ =>
    match r.candidates with
    | some (c :: _) => if c.partTexts.length > 0 then String.join c.partTexts else ""
    | _ => ""

/-- Lines 128-136: the diagnostic computed when the combined text is
empty: a prompt-feedback block reason if present, else an abnormal
(non-`STOP`) finish reason of the first candidate, else no classification
(generic no-content failure). -/
def classifyEmptyResponse (r : GenResponse) : GenFailureReason :=
  match r.promptBlockReason with
  | some b => GenFailureReason.blocked b
  | none =>
    match r.candidates with
    | some (c :: _) =>
      match c.finishReason with
      | some f => if f ≠ "STOP" then GenFailureReason.abnormalFinish f
                  else GenFailureReason.noContent
      | none => GenFailureReason.noContent
    | _ => GenFailureReason.noContent

/-- `generateCheatsheetWithGemini` (lines 96-172): returns the generated
text, or fails with the classified reason (empty content is classified by
`classifyEmptyResponse` before the function raises; a rejected API call
or processing error is wrapped by the outer `catch`). -/
def generateCheatsheetWithGemini (api : GenApiResult) : Except GenFailureReason String :=
  match api with
  | GenApiResult.transportError m => Except.error (GenFailureReason.apiError m)
  | GenApiResult.response r =>
    let t := extractedText r
    if isBlank t then Except.error (classifyEmptyResponse r)
    else Except.ok t

/-! ## Per-Source Pipeline (`processSource`, lines 194-269) -/

/-- One unit of work (the record built by the Source Loader, lines
289-295 / 325-330, with string-typed fields as §3 of the specification
requires). -/
structure SourceSpec where
  name : String
  repo : String
  path : String
  sourceOrigin : String
deriving DecidableEq

/-- The environment one pipeline run executes against: the outcome of
every external effect the run performs, in program order.
`leftoverWorkspace`: whether the workspace directory pre-exists;
`precleanOk`: whether the initial `fs.rmSync` (line 205) succeeds;
`mkdirOk`: whether `fs.mkdirSync` (line 211) succeeds;
`cloneOk`: whether `git clone` (line 214) exits zero;
`docsPathExists`: the `fs.existsSync` check (line 219);
`extraction`: stdout of `files-to-prompt` (line 229) or its error;
`genApi`: what the Gemini call produces;
`saveOk`: whether `saveCheatsheet`'s mkdir+write (lines 179-180) succeed;
`finalCleanupOk`: whether the `finally` block's `fs.rmSync` (line 262)
succeeds when the directory is present. -/
structure SourceEnv where
  leftoverWorkspace : Bool
  precleanOk : Bool
  mkdirOk : Bool
  cloneOk : Bool
  docsPathExists : Bool
  extraction : Except String String
  genApi : GenApiResult
  saveOk : Bool
  finalCleanupOk : Bool
deriving DecidableEq

/-- Why a pipeline run failed (identified by which step's `throw` the
catch-all at lines 254-257 received). -/
inductive FailReason
  | workspacePrepFailed
  | cloneFailed
  | docsPathMissing
  | extractionFailed (message : String)
  | noDocumentationExtracted
  | generationFailed (g : GenFailureReason)
  | persistFailed
deriving DecidableEq

/-- Outcome of one pipeline run (§3 `PipelineResult`). -/
inductive PipelineResult
  | success
  | failure (r : FailReason)
deriving DecidableEq

/-- `fs.rmSync(dir, { recursive: true, force: true })` on a directory
whose existence is `present`, where `ok` says whether removal of an
existing directory succeeds.  With `force: true` a missing directory is
not an error.  Returns (directory exists afterwards, call succeeded). -/
def rmForce (present ok : Bool) : Bool × Bool :=
  if present then (if ok then (false, true) else (true, false))
  else (false, true)

/-- Where the `try` block of `processSource` (lines 201-253) stops, step
by step in program order: `mkdirSync` (line 211, after the pre-clean of
lines 204-210 whose failure only warns), clone (214), docs-path check
(219-221), extraction (224-244, empty output rejected at 240-242 before
generation), generation (247), save (250), success (252). -/
def pipelineOutcome (env : SourceEnv) : Except FailReason Unit :=
  if env.mkdirOk = false then Except.error FailReason.workspacePrepFailed
  else if env.cloneOk = false then Except.error FailReason.cloneFailed
  else if env.docsPathExists = false then Except.error FailReason.docsPathMissing
  else
    match env.extraction with
    | Except.error m => Except.error (FailReason.extractionFailed m)
    | Except.ok docText =>
      if isBlank docText then Except.error FailReason.noDocumentationExtracted
      else
        match generateCheatsheetWithGemini env.genApi with
        | Except.error g => Except.error (FailReason.generationFailed g)
        | Except.ok _ =>
          if env.saveOk = false then Except.error FailReason.persistFailed
          else Except.ok ()

/-- Whether the workspace directory exists when the `try` block ends:
`mkdirSync` (line 211) creates it on every path that gets past line 211,
and no later step removes it; if `mkdirSync` itself failed, the directory
is whatever the pre-clean (lines 204-210) left. -/
def workspaceAfterBody (env : SourceEnv) : Bool :=
  if env.mkdirOk = false then (rmForce env.leftoverWorkspace env.precleanOk).1
  else true

/-- Whether step 4's Gemini call (line 247) is reached: exactly when
workspace preparation, clone, the docs-path check and a non-blank
extraction all succeeded. -/
def generationReached (env : SourceEnv) : Bool :=
  env.mkdirOk && env.cloneOk && env.docsPathExists &&
    (match env.extraction with
     | Except.ok docText => !isBlank docText
     | Except.error _ => false)

/-- Whether `saveCheatsheet`'s write (line 180) completed: exactly on the
all-steps-succeeded path. -/
def outputWasWritten (env : SourceEnv) : Bool :=
  match pipelineOutcome env with
  | Except.ok _ => true
  | Except.error _ => false

/-- Everything observable about one completed pipeline run. -/
structure PipelineRun where
  result : PipelineResult
  workspaceExists : Bool
  outputWritten : Bool
  generationInvoked : Bool
  workspacePath : String
  outputFile : Option String
deriving DecidableEq

/-- `processSource` (lines 194-269): runs the `try` block, converts any
step error into a logged failure (the `catch` at 254-257 does not
rethrow), then best-effort-removes the workspace in `finally`
(258-268). -/
def processSource (spec : SourceSpec) (env : SourceEnv) : PipelineRun :=
  { result := match pipelineOutcome env with
              | Except.ok _ => PipelineResult.success
              | Except.error r => PipelineResult.failure r,
    workspaceExists := (rmForce (workspaceAfterBody env) env.finalCleanupOk).1,
    outputWritten := outputWasWritten env,
    generationInvoked := generationReached env,
    workspacePath := tempRepoPath spec.name,
    outputFile := if outputWasWritten env then some (cheatsheetFilename spec.name)
                  else none }

/-- The pipeline as the Batch Driver awaits it: every execution path of
`processSource` resolves (its `catch` swallows step errors and its
`finally` wraps the cleanup `rmSync` in an inner `try`), so the promise
never rejects for a string-typed `SourceSpec`. -/
def processSourceAwait (spec : SourceSpec) (env : SourceEnv) : Except String PipelineRun :=
  Except.ok (processSource spec env)

/-! ## Batch Driver (`run`, lines 341-361) -/

/-- The final tally the driver logs (lines 357-360): `attempted` is
`sourcesToProcess.length`, `succeeded`/`failed` are the two counters of
the loop at lines 345-354. -/
structure BatchTally where
  attempted : Nat
  succeeded : Nat
  failed : Nat
deriving DecidableEq

/-- The loop body's accounting (lines 345-354): a resolved pipeline
promise increments `successCount`, a rejected one is caught and
increments `failureCount`.  Returns (successes, failures, the per-source
runs in order, `none` marking a rejection). -/
def tallySteps : List (Except String PipelineRun) → Nat × Nat × List (Option PipelineRun)
  | [] => (0, 0, [])
  | step :: rest =>
    let t := tallySteps rest
    match step with
    | Except.ok r => (t.1 + 1, t.2.1, some r :: t.2.2)
    | Except.error _ => (t.1, t.2.1 + 1, none :: t.2.2)

/-- The Batch Driver over an explicit list of (source, environment)
pairs: processes each source in order and produces the final tally. -/
def runBatch (xs : List (SourceSpec × SourceEnv)) : BatchTally × List (Option PipelineRun) :=
  let t := tallySteps (xs.map fun x => processSourceAwait x.1 x.2)
  ({ attempted := xs.length, succeeded := t.1, failed := t.2.1 }, t.2.2)

/-! ## Source Loader and startup (`run`, lines 271-338; API-key check,
lines 24-31) -/

/-- A JSON value, as `JSON.parse` produces it.  Numbers are modelled by
integers (the claims only exercise integral literals; the only property
consumed is JavaScript truthiness, and `NaN` cannot occur in JSON). -/
inductive JsonVal
  | null
  | bool (b : Bool)
  | num (n : Int)
  | str (s : String)
  | arr (elems : List JsonVal)
  | obj (fields : List (String × JsonVal))

/-- JavaScript truthiness of a JSON value. -/
def jsTruthy : JsonVal → Bool
  | JsonVal.null => false
  | JsonVal.bool b => b
  | JsonVal.num n => n != 0
  | JsonVal.str s => s != ""
  | JsonVal.arr _ => true
  | JsonVal.obj _ => true

/-- Truthiness of a property access: a missing property is `undefined`,
which is falsy. -/
def jsFieldTruthy : Option JsonVal → Bool
  | none => false
  | some v => jsTruthy v

/-- The three properties of a parsed source file that the loader reads
(line 289); other properties are ignored. -/
structure SourceJson where
  name : Option JsonVal
  repo : Option JsonVal
  path : Option JsonVal

/-- Line 289: `sourceData.repo && sourceData.name && sourceData.path`. -/
def sourceFieldsValid (o : SourceJson) : Bool :=
  jsFieldTruthy o.repo && jsFieldTruthy o.name && jsFieldTruthy o.path

/-- What loading one source-file argument yields from the filesystem:
the file is absent (line 305), unreadable or unparsable (line 301), or
parsed into a record. -/
inductive FileLoad
  | notFound
  | unreadable (message : String)
  | parsed (data : SourceJson)

/-- The record pushed onto `sourcesToProcess` (lines 290-295): the raw
JSON values of the three fields plus the provenance.  The fields are
present whenever the truthiness check passed. -/
structure LoadedSource where
  name : JsonVal
  repo : JsonVal
  path : JsonVal
  sourceOrigin : String

/-- Loading one command-line argument (lines 278-308): resolve the path,
and accept the parsed record only when all three required fields are
truthy; every other case is a logged loader error and yields nothing. -/
def loadSourceArg (arg : String) (fl : FileLoad) : Option LoadedSource :=
  match fl with
  | FileLoad.parsed o =>
    if sourceFieldsValid o then
      some { name := (o.name).getD JsonVal.null,
             repo := (o.repo).getD JsonVal.null,
             path := (o.path).getD JsonVal.null,
             sourceOrigin := jsBaseName (resolvedPathString (resolveSourceFilePath arg)) }
    else none
  | _ => none

/-- The three environment variables of fallback mode (lines 319-321). -/
structure EnvVars where
  repoUrl : Option String
  projectName : Option String
  docsDir : Option String

/-- Truthiness of an environment variable: unset or empty is falsy
(the `if (!geminiApiKey)` and `if (repoUrlEnv && ...)` tests). -/
def envStrTruthy : Option String → Bool
  | none => false
  | some s => s != ""

/-- How the process can end (lines 28-31, 311-314, 331-337, 356-369). -/
inductive RunOutcome
  | fatalMissingApiKey
  | fatalNoValidSources
  | fatalMissingEnvConfig
  | completed (tally : BatchTally) (runs : List (Option PipelineRun))

/-- The process exit status of each outcome: the three startup failures
call `process.exit(1)`; a completed batch falls off the end of `run` and
exits zero (the `process.exit(1)` on partial failure, line 366, is
commented out). -/
def exitCode : RunOutcome → Nat
  | RunOutcome.completed _ _ => 0
  | _ => 1

/-- How many sources were handed to the Per-Source Pipeline: the fatal
startup outcomes exit before the processing loop starts. -/
def sourcesAttempted : RunOutcome → Nat
  | RunOutcome.completed t _ => t.attempted
  | _ => 0

/-- Resolving the batch (lines 275-338): with arguments, load each file
independently and fail only when no valid source was produced (311-314);
without arguments, fall back to the three environment variables
(316-337). -/
def resolveSources (args : List (String × FileLoad)) (env : EnvVars) :
    Except RunOutcome (List LoadedSource) :=
  if args.length > 0 then
    let loaded := args.filterMap fun a => loadSourceArg a.1 a.2
    if loaded.length = 0 then Except.error RunOutcome.fatalNoValidSources
    else Except.ok loaded
  else if envStrTruthy env.repoUrl && envStrTruthy env.projectName
          && envStrTruthy env.docsDir then
    Except.ok [{ name := JsonVal.str ((env.projectName).getD ("")),
                 repo := JsonVal.str ((env.repoUrl).getD ("")),
                 path := JsonVal.str ((env.docsDir).getD ("")),
                 sourceOrigin := "environment variables" }]
  else Except.error RunOutcome.fatalMissingEnvConfig

/-- The string interpolation JavaScript applies to a non-string value
that only flows into log lines and external-command arguments (whose
outcomes the environment supplies). -/
def jsonDisplay : JsonVal → String
  | JsonVal.null => "null"
  | JsonVal.bool b => if b then "true" else "false"
  | JsonVal.num n => toString n
  | JsonVal.str s => s
  | JsonVal.arr _ => ""
  | JsonVal.obj _ => "[object Object]"

/-- One iteration of the processing loop (lines 345-353) on a loaded
record.  A non-string `name` makes line 199
(`currentProjectName.toLowerCase()`) throw a `TypeError` before the
pipeline's `try` block, rejecting the promise; a string-named record runs
the pipeline, which always resolves. -/
def runLoadedSource (r : LoadedSource) (env : SourceEnv) : Except String PipelineRun :=
  match r.name with
  | JsonVal.str n =>
    processSourceAwait
      { name := n, repo := jsonDisplay r.repo, path := jsonDisplay r.path,
        sourceOrigin := r.sourceOrigin } env
  | _ => Except.error ("TypeError: currentProjectName.toLowerCase is not a function")

/-- The processing loop and final tally over the loaded queue, the i-th
source running against environment `envOf i`. -/
def runAll (queue : List LoadedSource) (envOf : Nat → SourceEnv) :
    BatchTally × List (Option PipelineRun) :=
  let t := tallySteps (queue.enum.map fun p => runLoadedSource p.2 (envOf p.1))
  ({ attempted := queue.length, succeeded := t.1, failed := t.2.1 }, t.2.2)

/-- The whole process: the API-key check (lines 28-31) runs at module
load, before any source handling; then `run` resolves the batch and
processes it. -/
def mainProcess (apiKey : Option String) (args : List (String × FileLoad))
    (env : EnvVars) (envOf : Nat → SourceEnv) : RunOutcome :=
  if envStrTruthy apiKey then
    match resolveSources args env with
    | Except.error o => o
    | Except.ok queue =>
      RunOutcome.completed (runAll queue envOf).1 (runAll queue envOf).2
  else RunOutcome.fatalMissingApiKey

/-! ## Concrete inputs used by witnesses and counterexamples -/

/-- A well-formed source record. -/
def demoSpec : SourceSpec :=
  { name := "demo", repo := "https://example.com/repo.git",
    path := "docs", sourceOrigin := "a.json" }

/-- A Gemini response whose `text()` returns a normal document. -/
def goodResponse : GenResponse :=
  { textResult := Except.ok ("## Introduction for the LLM Agent\nhello"),
    candidates := some [], promptBlockReason := none }

/-- An environment in which every step succeeds. -/
def okEnv : SourceEnv :=
  { leftoverWorkspace := false, precleanOk := true, mkdirOk := true,
    cloneOk := true, docsPathExists := true,
    extraction := Except.ok ("documentation text"),
    genApi := GenApiResult.response goodResponse,
    saveOk := true, finalCleanupOk := true }

/-- Same environment, but `git clone` fails. -/
def cloneFailEnv : SourceEnv := { okEnv with cloneOk := false }

/-- Same environment, but extraction produces only whitespace. -/
def blankExtractionEnv : SourceEnv :=
  { okEnv with extraction := Except.ok ("  \n\t ") }

/-- The C3 scenario: the API returns an empty candidate list together
with a content-policy block reason, and `response.text()` throws. -/
def blockedResponse : GenResponse :=
  { textResult := Except.error (),
    candidates := some [], promptBlockReason := some ("SAFETY") }

/-- Environment reaching generation, which is blocked. -/
def blockedEnv : SourceEnv :=
  { okEnv with genApi := GenApiResult.response blockedResponse }

/-- A response with no content and no block reason. -/
def emptyQuietResponse : GenResponse :=
  { textResult := Except.ok (""), candidates := some [], promptBlockReason := none }

/-- A response whose only candidate stopped abnormally with no text. -/
def truncatedResponse : GenResponse :=
  { textResult := Except.error (),
    candidates := some [{ partTexts := [], finishReason := some ("MAX_TOKENS") }],
    promptBlockReason := none }

/-- A parsed source file whose `name` is a (truthy) number. -/
def numericNameJson : SourceJson :=
  { name := some (JsonVal.num 42),
    repo := some (JsonVal.str ("https://example.com/r.git")),
    path := some (JsonVal.str ("docs")) }

/-- A parsed source file whose `name` is the empty string. -/
def emptyNameJson : SourceJson :=
  { name := some (JsonVal.str ("")),
    repo := some (JsonVal.str ("https://example.com/r.git")),
    path := some (JsonVal.str ("docs")) }

/-- A valid parsed source file with string fields. -/
def demoJson : SourceJson :=
  { name := some (JsonVal.str ("demo")),
    repo := some (JsonVal.str ("https://example.com/repo.git")),
    path := some (JsonVal.str ("docs")) }

/-- The record `demoJson`, loaded from the bare filename `a.json`. -/
def demoLoaded : LoadedSource :=
  { name := JsonVal.str ("demo"), repo := JsonVal.str ("https://example.com/repo.git"),
    path := JsonVal.str ("docs"), sourceOrigin := "a.json" }

/-- A one-file argument list carrying `demoJson`. -/
def demoArgs : List (String × FileLoad) := [("a.json", FileLoad.parsed demoJson)]

/-- No environment variables set. -/
def emptyEnvVars : EnvVars := { repoUrl := none, projectName := none, docsDir := none }

/-- Every source processed against the clone-failure environment. -/
def cloneFailEnvOf : Nat → SourceEnv := fun _ => cloneFailEnv

/-! ## Helper lemmas -/

/-- A successful `rmSync` (or one on an absent directory) leaves the
directory absent. -/
theorem rmForce_ok_absent (w : Bool) : rmForce w true = (false, true) := by
  cases w <;> rfl

/-- Tallying a list of resolved promises counts every element as a
success and keeps every run. -/
theorem tallySteps_map_ok {α : Type} (f : α → PipelineRun) (xs : List α) :
    tallySteps (xs.map fun x => Except.ok (f x))
      = (xs.length, 0, xs.map fun x => some (f x)) := by
  induction xs with
  | nil => rfl
  | cons x xs ih => simp [tallySteps, ih]

/-- The specification collapse keeps an alphanumeric head. -/
theorem collapseRunsSpec_cons_alnum {c : Char} (cs : List Char)
    (h : isLowerAlnum c = true) :
    collapseRunsSpec (c :: cs) = c :: collapseRunsSpec cs := by
  cases cs <;> simp [collapseRunsSpec, h]

/-- The specification collapse turns a maximal run of non-alphanumeric
characters into a single underscore. -/
theorem collapseRunsSpec_cons_run {c : Char} (cs : List Char)
    (h : isLowerAlnum c = false) :
    collapseRunsSpec (c :: cs)
      = '_' :: collapseRunsSpec (cs.dropWhile fun d => !isLowerAlnum d) := by
  induction cs generalizing c with
  | nil => simp [collapseRunsSpec, h]
  | cons d ds ih =>
    cases hd : isLowerAlnum d with
    | true => simp [collapseRunsSpec, h, hd, List.dropWhile]
    | false =>
      have hdrop : ((d :: ds).dropWhile fun x => !isLowerAlnum x)
          = ds.dropWhile fun x => !isLowerAlnum x := by
        simp [List.dropWhile, hd]
      rw [hdrop, ← ih hd]
      simp [collapseRunsSpec, h, hd]

/-- The left-scan implementation of the regex replacement agrees with the
specification collapse, in both scan states. -/
theorem collapseAux_eq_spec (l : List Char) :
    collapseAux false l = collapseRunsSpec l
    ∧ collapseAux true l
        = collapseRunsSpec (l.dropWhile fun d => !isLowerAlnum d) := by
  induction l with
  | nil => exact ⟨rfl, rfl⟩
  | cons c cs ih =>
    cases h : isLowerAlnum c with
    | true =>
      constructor
      · simp [collapseAux, h, ih.1, collapseRunsSpec_cons_alnum cs h]
      · simp [collapseAux, h, ih.1, List.dropWhile,
              collapseRunsSpec_cons_alnum cs h]
    | false =>
      constructor
      · simp only [collapseAux, h, Bool.false_eq_true, if_false]
        rw [ih.2, ← collapseRunsSpec_cons_run cs h]
      · simp only [collapseAux, h, Bool.false_eq_true, if_false]
        rw [ih.2]
        simp [List.dropWhile, h]

/-! ## Claim theorems -/

/-- Claim C1 (code bug): with a single-source batch whose `git clone`
fails, the pipeline outcome is `Failure(CloneFailed)`, yet the Batch
Driver's tally records it as a success: `processSource` swallows the
error (its `catch` at lines 254-257 does not rethrow), so the `catch` in
the loop (lines 349-353) is unreachable and `successCount` is
incremented for the failed source while `failureCount` stays `0` —
contradicting the loop's own accounting intent and the final
`Failures:` summary line. -/
theorem c1_failed_source_counted_as_success :
    (processSource demoSpec cloneFailEnv).result
      = PipelineResult.failure FailReason.cloneFailed
    ∧ runBatch [(demoSpec, cloneFailEnv)]
        = ({ attempted := 1, succeeded := 1, failed := 0 },
           [some (processSource demoSpec cloneFailEnv)]) :=
  ⟨rfl, rfl⟩

/-- Claim C2: the Per-Source Pipeline never raises past its own boundary
— for every source list and every environment, each source's promise
resolves (every position of the run list is `some`), every source is
attempted exactly once and in order, and the batch length is the full
input length, so no failure in one source prevents a later one. -/
theorem c2_pipeline_isolation (xs : List (SourceSpec × SourceEnv)) :
    (runBatch xs).2 = xs.map (fun x => some (processSource x.1 x.2))
    ∧ (runBatch xs).1.attempted = xs.length := by
  constructor
  · simp [runBatch, processSourceAwait, tallySteps_map_ok]
  · rfl

/-- Claim C3: the Generation Client classifies its failures, reporting
distinct reasons for a content-policy block, a generic empty response, an
abnormal (non-`STOP`) finish, and a transport/API error; and in the
scenario where the API returns an empty candidate list with a
content-policy block reason, the pipeline result is
`Failure(GenerationFailed(Blocked))`, no output file is written, and the
workspace is still removed. -/
theorem c3_generation_failure_classification :
    generateCheatsheetWithGemini (GenApiResult.response blockedResponse)
      = Except.error (GenFailureReason.blocked ("SAFETY"))
    ∧ generateCheatsheetWithGemini (GenApiResult.response emptyQuietResponse)
      = Except.error GenFailureReason.noContent
    ∧ generateCheatsheetWithGemini (GenApiResult.response truncatedResponse)
      = Except.error (GenFailureReason.abnormalFinish ("MAX_TOKENS"))
    ∧ generateCheatsheetWithGemini (GenApiResult.transportError ("fetch failed"))
      = Except.error (GenFailureReason.apiError ("fetch failed"))
    ∧ (processSource demoSpec blockedEnv).result
      = PipelineResult.failure
          (FailReason.generationFailed (GenFailureReason.blocked ("SAFETY")))
    ∧ (processSource demoSpec blockedEnv).outputFile = none
    ∧ (processSource demoSpec blockedEnv).workspaceExists = false :=
  ⟨rfl, rfl, rfl, rfl, rfl, rfl, rfl⟩

/-- Claim C4: whenever the final cleanup `rmSync` succeeds, the workspace
directory does not exist after the pipeline run, whatever the run's
outcome; removing an already-absent directory is not an error
(`force: true`); and the success or failure of either `rmSync` (the
pre-clean and the `finally` cleanup) never changes the pipeline's
result. -/
theorem c4_workspace_cleanup (spec : SourceSpec) (env : SourceEnv) :
    (env.finalCleanupOk = true → (processSource spec env).workspaceExists = false)
    ∧ (∀ b, rmForce false b = (false, true))
    ∧ (∀ b1 b2, (processSource spec { env with finalCleanupOk := b1 }).result
          = (processSource spec { env with finalCleanupOk := b2 }).result)
    ∧ (∀ b1 b2, (processSource spec { env with precleanOk := b1 }).result
          = (processSource spec { env with precleanOk := b2 }).result) := by
  refine ⟨?_, ?_, ?_, ?_⟩
  · intro h
    simp [processSource, h, rmForce_ok_absent]
  · intro b
    rfl
  · intro b1 b2
    cases env
    rfl
  · intro b1 b2
    cases env
    rfl

/-- Witness for C4 at a concrete run. -/
theorem c4_workspace_cleanup_witness :
    (processSource demoSpec cloneFailEnv).workspaceExists = false :=
  (c4_workspace_cleanup demoSpec cloneFailEnv).1 rfl

/-- Claim C5: if the pipeline reaches extraction and the extracted text
is empty or whitespace-only, the run fails with
`NoDocumentationExtracted` and the Generation Client is never invoked. -/
theorem c5_blank_extraction_short_circuits
    (spec : SourceSpec) (env : SourceEnv) (t : String)
    (h1 : env.mkdirOk = true) (h2 : env.cloneOk = true)
    (h3 : env.docsPathExists = true) (h4 : env.extraction = Except.ok t)
    (h5 : isBlank t = true) :
    (processSource spec env).result
      = PipelineResult.failure FailReason.noDocumentationExtracted
    ∧ (processSource spec env).generationInvoked = false := by
  constructor <;>
    simp [processSource, pipelineOutcome, generationReached, h1, h2, h3, h4, h5]

/-- Witness for C5 at a concrete whitespace-only extraction. -/
theorem c5_blank_extraction_witness :
    (processSource demoSpec blankExtractionEnv).result
      = PipelineResult.failure FailReason.noDocumentationExtracted
    ∧ (processSource demoSpec blankExtractionEnv).generationInvoked = false :=
  c5_blank_extraction_short_circuits demoSpec blankExtractionEnv
    ("  \n\t ") rfl rfl rfl rfl rfl

/-- Claim C6 counterexample: `foo/bar.json` is a relative path with a
directory component, so under the claim's rule it would be used as-is,
but the code resolves it against the default sources directory (it does
not start with `/` or `.`). -/
theorem c6_resolution_counterexample :
    resolveSourceFilePath ("foo/bar.json")
      = ResolvedPath.fromSourcesDir ("foo/bar.json")
    ∧ resolveSourceFilePathClaimed ("foo/bar.json")
      = ResolvedPath.fromCwd ("foo/bar.json")
    ∧ resolveSourceFilePath ("foo/bar.json")
        ≠ resolveSourceFilePathClaimed ("foo/bar.json") := by
  refine ⟨rfl, rfl, ?_⟩
  decide

/-- Claim C6 as amended: an argument whose first character is `/` or `.`
is used as-is; every other argument — bare filename or not — is resolved
against the default sources directory. -/
theorem c6_resolution_first_char_rule (arg : String) :
    resolveSourceFilePath arg = resolveByFirstChar arg := by
  have hs : (("/") : String).data = [ '/' ] := rfl
  have hd : ((".") : String).data = [ '.' ] := rfl
  obtain ⟨l⟩ := arg
  cases l with
  | nil => rfl
  | cons c cs =>
    by_cases h1 : c = '/'
    · subst h1
      simp [resolveSourceFilePath, resolveByFirstChar, jsStartsWith, hs, hd,
            List.isPrefixOf]
    · by_cases h2 : c = '.'
      · subst h2
        simp [resolveSourceFilePath, resolveByFirstChar, jsStartsWith, hs, hd,
              List.isPrefixOf]
      · have g1 : (( '/' : Char) == c) = false :=
          beq_eq_false_iff_ne.mpr fun hcc => h1 hcc.symm
        have g2 : (( '.' : Char) == c) = false :=
          beq_eq_false_iff_ne.mpr fun hcc => h2 hcc.symm
        simp [resolveSourceFilePath, resolveByFirstChar, jsStartsWith, hs, hd,
              List.isPrefixOf, g1, g2, h1, h2]

/-- Claim C7 counterexample: the workspace path is not injective on
distinct names — `a b` and `a.b` are different names mapped to the same
workspace directory. -/
theorem c7_workspace_collision :
    tempRepoPath ("a b") = tempRepoPath ("a.b")
    ∧ (("a b") : String) ≠ (("a.b") : String) := by
  refine ⟨rfl, ?_⟩
  decide

/-- Claim C7 as amended: the workspace path is a deterministic pure
function of the source name, and it is injective on sanitized names: two
sources whose sanitized (lower-cased, per-character `[^a-z0-9]` → `_`)
names differ never collide. -/
theorem c7_workspace_path_injective_on_sanitized (n1 n2 : String)
    (h : sanitizeWorkspaceName n1 ≠ sanitizeWorkspaceName n2) :
    tempRepoPath n1 ≠ tempRepoPath n2 := by
  intro heq
  apply h
  apply String.ext
  have hdata := congrArg String.data heq
  simp only [tempRepoPath, String.data_append] at hdata
  exact List.append_cancel_left hdata

/-- Witness for C7's amended statement at two distinct sanitized names. -/
theorem c7_workspace_path_witness :
    tempRepoPath ("alpha") ≠ tempRepoPath ("beta") :=
  c7_workspace_path_injective_on_sanitized ("alpha") ("beta") (by decide)

/-- Claim C8: the output filename is a pure function of the name — the
lower-cased name with each maximal run of characters outside `[a-z0-9]`
collapsed to a single underscore, suffixed `_cheatsheet.md` — and the
example `My Tool!` yields `my_tool__cheatsheet.md`. -/
theorem c8_filename_rule :
    (∀ name, cheatsheetFilename name = cheatsheetFilenameSpec name)
    ∧ cheatsheetFilename ("My Tool!") = "my_tool__cheatsheet.md" := by
  constructor
  · intro name
    unfold cheatsheetFilename cheatsheetFilenameSpec collapseRuns
    rw [(collapseAux_eq_spec (name.data.map jsLowerChar)).1]
  · rfl

/-- Claim C9: an untruthy API credential is fatal before any source is
attempted; any fatal exit (status 1) happens with zero sources attempted
and only when the credential is missing or no valid source resolves; and
whenever the credential is present and the loader produces a queue, the
process attempts the whole queue and exits with status zero, whatever the
per-source outcomes. -/
theorem c9_exit_policy (apiKey : Option String)
    (args : List (String × FileLoad)) (env : EnvVars) (envOf : Nat → SourceEnv) :
    (envStrTruthy apiKey = false →
      mainProcess apiKey args env envOf = RunOutcome.fatalMissingApiKey)
    ∧ (exitCode (mainProcess apiKey args env envOf) = 1 →
        sourcesAttempted (mainProcess apiKey args env envOf) = 0)
    ∧ (∀ queue, envStrTruthy apiKey = true →
        resolveSources args env = Except.ok queue →
        mainProcess apiKey args env envOf
          = RunOutcome.completed (runAll queue envOf).1 (runAll queue envOf).2
        ∧ (runAll queue envOf).1.attempted = queue.length
        ∧ exitCode (mainProcess apiKey args env envOf) = 0)
    ∧ (∀ o, resolveSources args env = Except.error o →
        (o = RunOutcome.fatalNoValidSources ∨ o = RunOutcome.fatalMissingEnvConfig)) := by
  refine ⟨?_, ?_, ?_, ?_⟩
  · intro h
    simp [mainProcess, h]
  · intro h
    cases hm : mainProcess apiKey args env envOf <;>
      simp [hm, exitCode, sourcesAttempted] at h ⊢
  · intro queue hk hr
    refine ⟨?_, rfl, ?_⟩ <;> simp [mainProcess, hk, hr, exitCode]
  · intro o hr
    unfold resolveSources at hr
    by_cases hl : args.length > 0
    · simp only [hl, if_true] at hr
      by_cases hz : (args.filterMap fun a => loadSourceArg a.1 a.2).length = 0
      · simp [hz] at hr
        exact Or.inl hr.symm
      · simp [hz] at hr
    · simp only [hl, if_false] at hr
      by_cases he : (envStrTruthy env.repoUrl && envStrTruthy env.projectName
          && envStrTruthy env.docsDir) = true
      · simp [he] at hr
      · simp [he] at hr
        exact Or.inr hr.symm

/-- Witness for C9: a one-source batch whose clone fails still completes
with exit status zero and one source attempted. -/
theorem c9_exit_policy_witness :
    exitCode (mainProcess (some ("key")) demoArgs emptyEnvVars cloneFailEnvOf) = 0
    ∧ sourcesAttempted (mainProcess (some ("key")) demoArgs emptyEnvVars cloneFailEnvOf) = 1 := by
  have h := (c9_exit_policy (some ("key")) demoArgs emptyEnvVars cloneFailEnvOf).2.2.1
    [demoLoaded] (by rfl) (by rfl)
  exact ⟨h.2.2, by rw [h.1]; exact h.2.1⟩

/-- Claim C10: the Source Loader's required-field validation is
truthiness-based — a field present but equal to the empty string is
rejected as missing (in a configuration file and for the environment
variables alike), while truthy non-string values such as the number `42`
are accepted and the record enters the processing queue. -/
theorem c10_truthiness_validation (o : SourceJson) :
    ((o.name = some (JsonVal.str ("")) ∨ o.repo = some (JsonVal.str (""))
        ∨ o.path = some (JsonVal.str (""))) → sourceFieldsValid o = false)
    ∧ (sourceFieldsValid o = true →
        ∀ a, (loadSourceArg a (FileLoad.parsed o)).isSome = true)
    ∧ sourceFieldsValid numericNameJson = true
    ∧ loadSourceArg ("num.json") (FileLoad.parsed numericNameJson)
        = some { name := JsonVal.num 42,
                 repo := JsonVal.str ("https://example.com/r.git"),
                 path := JsonVal.str ("docs"),
                 sourceOrigin := "num.json" }
    ∧ envStrTruthy (some ("")) = false := by
  refine ⟨?_, ?_, by rfl, by rfl, by rfl⟩
  · intro h
    rcases h with h | h | h <;>
      simp [sourceFieldsValid, h, jsFieldTruthy, jsTruthy]
  · intro hv a
    simp [loadSourceArg, hv]

/-- Witness for C10: the empty-string name is rejected, the all-string
record is accepted. -/
theorem c10_truthiness_witness :
    sourceFieldsValid emptyNameJson = false
    ∧ (loadSourceArg ("good.json") (FileLoad.parsed demoJson)).isSome = true :=
  ⟨(c10_truthiness_validation emptyNameJson).1 (Or.inl rfl),
   (c10_truthiness_validation demoJson).2.1 rfl ("good.json")⟩

end Cheatsheet
